import Mathlib

/-!
Verification of the state-broadcast core of the QSR wait-time display server
(`src/wait_time_display/app.py`), shallowly embedded in Lean.

The server keeps five global pieces of state (`WAIT_TIME`, `OFFER`, `MODE`,
`SHOW_OFFER`, `AUTO_OFFER`) and a set of listener queues.  Mutating HTTP
handlers update the state and call `notify`, which formats the state via
`_payload` and pushes the formatted string onto every listener queue,
discarding queues whose `put` raises.  The `/stream` endpoint registers a
queue, emits an initial snapshot, a retry directive and a heartbeat, then
loops forwarding pushed payloads or emitting heartbeats on a 20-second
timeout, and discards its queue on every exit path.

Queues are modelled as records carrying an identifier, an `alive` flag
(whether `put` succeeds — in Python a closed/broken queue raises) and the
list of messages delivered so far.  Boolean-ish form fields arrive as
`Option String` (FastAPI `Form(None)`), matching Python truthiness.
-/

/-- The five global state variables of `app.py` (lines 59-63). -/
structure DisplayState where
  WAIT_TIME : Int
  OFFER : String
  MODE : String
  SHOW_OFFER : Bool
  AUTO_OFFER : Bool
deriving DecidableEq, Repr

/-- One listener queue from the `listeners` set: `id` stands for the queue's
object identity, `alive` for whether `await q.put(...)` succeeds, and `inbox`
for the messages delivered to it so far. -/
structure Listener where
  id : Nat
  alive : Bool
  inbox : List String
deriving DecidableEq, Repr

/-- The whole in-memory server state: display state plus the `listeners` set
(modelled as a list; the Python set has distinct members by object identity,
stated as a `Nodup` hypothesis where it matters). -/
structure ServerState where
  display : DisplayState
  listeners : List Listener
deriving DecidableEq, Repr

/-- Function `_payload` (app.py lines 67-69): the SSE wire format
`f"data: {WAIT_TIME}|{OFFER}|{MODE}|{1 if SHOW_OFFER else 0}\n\n"`. -/
def _payload (d : DisplayState) : String :=
  "data: " ++ toString d.WAIT_TIME ++ "|" ++ d.OFFER ++ "|" ++ d.MODE ++ "|"
    ++ (if d.SHOW_OFFER then "1" else "0") ++ "\x0a\x0a"

/-- One `await q.put(msg)` attempt inside `notify`'s loop: on a live queue the
message is appended and the `try` succeeds; on a dead queue the `except`
branch fires (no delivery). Returns the queue and whether `put` succeeded. -/
def tryPut (q : Listener) (msg : String) : Listener × Bool :=
  if q.alive then ({ q with inbox := q.inbox ++ [msg] }, true) else (q, false)

/-- The `for q in list(listeners)` loop of `notify` (app.py lines 75-79):
attempts delivery to each queue in order, collecting the ids of queues whose
`put` raised (`dead_queues`). -/
def notifyLoop (msg : String) : List Listener → List Listener × List Nat
  | [] => ([], [])
  | q :: rest =>
    let r := tryPut q msg
    let rec' := notifyLoop msg rest
    (r.1 :: rec'.1, if r.2 then rec'.2 else q.id :: rec'.2)

/-- Function `notify` (app.py lines 71-82): format the current state once, push it to
every listener, then discard the dead queues from the registry. -/
def notify (st : ServerState) : ServerState :=
  let msg := _payload st.display
  let r := notifyLoop msg st.listeners
  { st with listeners := r.1.filter (fun q => decide (q.id ∉ r.2)) }

/-- Python whitespace as tested by `str.strip()` (ASCII subset): space,
tab, newline, carriage return, vertical tab, form feed. -/
def pyWhitespace (c : Char) : Bool :=
  c = ' ' || c = '\t' || c = '\n' || c = '\r' || c = '\x0b' || c = '\x0c'

/-- Python `str.strip()`: drop leading and trailing whitespace. -/
def pyStrip (s : String) : String :=
  ⟨((s.data.dropWhile pyWhitespace).reverse.dropWhile pyWhitespace).reverse⟩

/-- Python `str.lower()` (ASCII case mapping, which covers the mode
keywords). -/
def pyLower (s : String) : String :=
  ⟨s.data.map Char.toLower⟩

/-- Python truthiness of an optional form string, `bool(enabled)` for
`enabled: str = Form(None)`: `None` and `""` are falsy, every other string
(including `"false"` and `"0"`) is truthy. -/
def pyTruthy : Option String → Bool
  | none => false
  | some s => !s.isEmpty

/-- Handler `set_wait` for POST /wait (app.py lines 220-225): clamp to [0,10],
store, broadcast, return `(ok, wait)`. -/
def set_wait (st : ServerState) (value : Int) : ServerState × (Bool × Int) :=
  let w := max 0 (min 10 value)
  let st' := notify { st with display := { st.display with WAIT_TIME := w } }
  (st', (true, w))

/-- Handler `set_offer` for POST /offer (app.py lines 232-240): trim, store; if
the trimmed text is empty also force `SHOW_OFFER := false`; broadcast; return
`(ok, offer, show)`. -/
def set_offer (st : ServerState) (value : String) :
    ServerState × (Bool × String × Bool) :=
  let o := pyStrip value
  let d0 := { st.display with OFFER := o }
  let d := if o = "" then { d0 with SHOW_OFFER := false } else d0
  let st' := notify { st with display := d }
  (st', (true, o, d.SHOW_OFFER))

/-- Handler `offer_visibility` for POST /offer_visibility (app.py lines
242-247): `SHOW_OFFER = bool(enabled)`, broadcast, return `(ok, show)`. -/
def offer_visibility (st : ServerState) (enabled : Option String) :
    ServerState × (Bool × Bool) :=
  let b := pyTruthy enabled
  let st' := notify { st with display := { st.display with SHOW_OFFER := b } }
  (st', (true, b))

/-- Handler `set_mode` for POST /mode (app.py lines 254-263): normalize via
`strip().lower()`; if the result is one of {"time","logo","dual"} store it,
broadcast and answer ok; otherwise answer `ok = false` with nothing changed. -/
def set_mode (st : ServerState) (value : String) : ServerState × (Bool × String) :=
  let v := pyLower (pyStrip value)
  if v = "time" ∨ v = "logo" ∨ v = "dual" then
    let st' := notify { st with display := { st.display with MODE := v } }
    (st', (true, v))
  else
    (st, (false, st.display.MODE))

/-- Handler `set_auto` for POST /auto_offer (app.py lines 266-271):
`AUTO_OFFER = bool(enabled)`, broadcast, return `(ok, auto_offer)`. -/
def set_auto (st : ServerState) (enabled : Option String) :
    ServerState × (Bool × Bool) :=
  let b := pyTruthy enabled
  let st' := notify { st with display := { st.display with AUTO_OFFER := b } }
  (st', (true, b))

/-- The events the streaming loop can observe at its
`asyncio.wait_for(q.get(), timeout=20.0)` suspension point: either a payload
arrives on the queue, or the timeout fires. -/
inductive StreamEvent where
  | msg (data : String)
  | timeout
deriving DecidableEq, Repr

/-- The per-iteration heartbeat timeout of the streaming loop
(`timeout=20.0`, app.py line 291). -/
def HEARTBEAT_TIMEOUT : Nat := 20

/-- What the `wait_for` step of the loop resolves to: the head of the queue if
one is pending, `timeout` once `HEARTBEAT_TIMEOUT` time units elapse with the
queue empty, and still pending (`none`) before that. -/
def streamWait (inbox : List String) (elapsed : Nat) : Option StreamEvent :=
  match inbox with
  | d :: _ => some (StreamEvent.msg d)
  | [] => if HEARTBEAT_TIMEOUT ≤ elapsed then some StreamEvent.timeout else none

/-- One iteration of the `while True` loop (app.py lines 288-295): on a
pushed payload, yield it verbatim; on timeout, yield the heartbeat comment.
The second component records whether the loop continues (it always does —
only external cancellation ends the generator). -/
def streamLoopStep : StreamEvent → String × Bool
  | StreamEvent.msg d => (d, true)
  | StreamEvent.timeout => (": heartbeat\x0a\x0a", true)

/-- Registration `listeners.add(q)` on session start (app.py lines 277-278): a fresh live
queue with an empty inbox is added to the registry. -/
def streamRegister (st : ServerState) (qid : Nat) : ServerState :=
  { st with listeners := st.listeners ++ [⟨qid, true, []⟩] }

/-- The emissions of the generator `generate()` (app.py lines 280-295) given
the display state at session start and the sequence of loop events observed
before cancellation: first the snapshot, the retry directive and the initial
heartbeat (lines 282-286), then one yield per loop iteration. -/
def streamEmissions (d : DisplayState) (events : List StreamEvent) : List String :=
  _payload d :: "retry: 3000\x0a\x0a" :: ": heartbeat\x0a\x0a"
    :: events.map (fun e => (streamLoopStep e).1)

/-- Removal `listeners.discard(q)`: remove the queue with identity `qid` if present
(a no-op when absent, like `set.discard`). -/
def discardListener (ls : List Listener) (qid : Nat) : List Listener :=
  ls.filter (fun q => q.id ≠ qid)

/-- The ways a streaming session can end (app.py lines 297-300): transport
cancellation (`asyncio.CancelledError`), a send error propagating out of the
generator, or forced shutdown closing the generator — all reach `finally`. -/
inductive TermCause where
  | cancelled
  | sendError
  | shutdown
deriving DecidableEq, Repr

/-- Session teardown: on `CancelledError` the `except` branch discards the
queue and then `finally` discards it again; on every other exit only the
`finally` discard runs. -/
def streamTeardown (st : ServerState) (qid : Nat) : TermCause → ServerState
  | TermCause.cancelled =>
    let st' := { st with listeners := discardListener st.listeners qid }
    { st' with listeners := discardListener st'.listeners qid }
  | TermCause.sendError => { st with listeners := discardListener st.listeners qid }
  | TermCause.shutdown => { st with listeners := discardListener st.listeners qid }

-- Helper lemmas about `notify`.

/-- The dead-id list of `notifyLoop` holds only ids of dead members. -/
lemma notifyLoop_dead_subset (msg : String) (ls : List Listener) :
    ∀ i ∈ (notifyLoop msg ls).2, ∃ q ∈ ls, q.id = i ∧ q.alive = false := by
  induction ls with
  | nil => simp [notifyLoop]
  | cons q rest ih =>
    intro i hi
    simp only [notifyLoop, tryPut] at hi
    by_cases hq : q.alive
    · simp [hq] at hi
      obtain ⟨p, hp, hpi⟩ := ih i hi
      exact ⟨p, List.mem_cons_of_mem _ hp, hpi⟩
    · simp [hq] at hi
      rcases hi with h | h
      · exact ⟨q, List.mem_cons_self _ _, h.symm, by simp [hq]⟩
      · obtain ⟨p, hp, hpi⟩ := ih i h
        exact ⟨p, List.mem_cons_of_mem _ hp, hpi⟩

/-- A dead listener's id is collected. -/
lemma notifyLoop_dead_mem (msg : String) (ls : List Listener) :
    ∀ q ∈ ls, q.alive = false → q.id ∈ (notifyLoop msg ls).2 := by
  induction ls with
  | nil => simp
  | cons p rest ih =>
    intro q hq hdead
    simp only [notifyLoop, tryPut]
    rcases List.mem_cons.mp hq with h | h
    · subst h; simp [hdead]
    · by_cases hp : p.alive <;> simp [hp, ih q h hdead]

/-- The delivered list of `notifyLoop`. -/
lemma notifyLoop_fst (msg : String) (ls : List Listener) :
    (notifyLoop msg ls).1
      = ls.map (fun q => if q.alive then { q with inbox := q.inbox ++ [msg] } else q) := by
  induction ls with
  | nil => simp [notifyLoop]
  | cons q rest ih =>
    simp only [notifyLoop, tryPut, List.map_cons]
    by_cases hq : q.alive <;> simp [hq, ih]

/-- Filtering the delivered list against any dead-id set that contains
exactly the dead members' ids keeps exactly the live members, updated. -/
lemma filter_delivered (msg : String) (D : List Nat) :
    ∀ ls : List Listener,
    (∀ q ∈ ls, (q.alive = false → q.id ∈ D) ∧ (q.alive = true → q.id ∉ D)) →
    ((ls.map (fun q => if q.alive then { q with inbox := q.inbox ++ [msg] } else q)).filter
        (fun q => decide (q.id ∉ D)))
      = (ls.filter (fun q => q.alive)).map
          (fun q => { q with inbox := q.inbox ++ [msg] }) := by
  intro ls
  induction ls with
  | nil => intro _; simp
  | cons q rest ih =>
    intro hD
    have hq := hD q (List.mem_cons_self _ _)
    have hrest := ih (fun p hp => hD p (List.mem_cons_of_mem _ hp))
    by_cases ha : q.alive
    · have hnot : q.id ∉ D := hq.2 ha
      simp only [List.map_cons, if_pos ha, List.filter_cons]
      rw [if_pos (by simp [hnot])]
      rw [hrest]
    · have hin : q.id ∈ D := hq.1 (by simpa using ha)
      simp only [List.map_cons, if_neg ha, List.filter_cons]
      rw [if_neg (by simp [hin])]
      rw [hrest]

/-- Characterization of `notify` on a registry with distinct queue
identities: the surviving listeners are exactly the live ones, each with the
formatted payload appended once to its inbox, in registry order. -/
lemma notify_listeners (st : ServerState)
    (h : (st.listeners.map Listener.id).Nodup) :
    (notify st).listeners
      = (st.listeners.filter (fun q => q.alive)).map
          (fun q => { q with inbox := q.inbox ++ [_payload st.display] }) := by
  show ((notifyLoop (_payload st.display) st.listeners).1.filter _) = _
  rw [notifyLoop_fst]
  apply filter_delivered
  intro q hq
  constructor
  · intro hdead
    exact notifyLoop_dead_mem (_payload st.display) st.listeners q hq hdead
  · intro halive hmem
    obtain ⟨p, hp, hpid, hpdead⟩ :=
      notifyLoop_dead_subset (_payload st.display) st.listeners q.id hmem
    have : p = q := List.inj_on_of_nodup_map h hp hq hpid
    rw [this] at hpdead
    rw [halive] at hpdead
    exact Bool.noConfusion hpdead

/-- Broadcasting never touches the display state. -/
lemma notify_display (st : ServerState) : (notify st).display = st.display := rfl

-- Claim theorems.

/-- C1: `broadcast(p)` (the `notify` fan-out) delivers exactly one copy of
the formatted payload to each listener registered at the time of the call
whose delivery succeeds, a per-listener delivery failure only causes that
listener's removal from the registry (it never blocks delivery to the
remaining listeners), and the surviving registry is exactly the live
listeners, each with the payload appended once, in order. -/
theorem C1_broadcast_delivery (st : ServerState)
    (h : (st.listeners.map Listener.id).Nodup) :
    ((notify st).listeners
        = (st.listeners.filter (fun q => q.alive)).map
            (fun q => { q with inbox := q.inbox ++ [_payload st.display] }))
    ∧ (∀ q ∈ st.listeners, q.alive = true →
        ({ q with inbox := q.inbox ++ [_payload st.display] } : Listener)
          ∈ (notify st).listeners)
    ∧ (∀ q ∈ st.listeners, q.alive = false →
        ∀ q' ∈ (notify st).listeners, q'.id ≠ q.id) := by
  have hc := notify_listeners st h
  refine ⟨hc, ?_, ?_⟩
  · intro q hq halive
    rw [hc]
    exact List.mem_map_of_mem _ (List.mem_filter.mpr ⟨hq, halive⟩)
  · intro q hq hdead q' hq' hid
    rw [hc] at hq'
    obtain ⟨p, hp, hpq⟩ := List.mem_map.mp hq'
    have hpq' : p.id = q.id := by rw [← hpq] at hid; exact hid
    have hpmem := (List.mem_filter.mp hp).1
    have hpalive := (List.mem_filter.mp hp).2
    have : p = q := List.inj_on_of_nodup_map h hpmem hq hpq'
    rw [this] at hpalive
    rw [hdead] at hpalive
    exact Bool.noConfusion hpalive

/-- C1 witness: on a registry with a live queue 1 and a dead queue 2, the
broadcast delivers one copy to queue 1 and removes queue 2. -/
theorem C1_broadcast_delivery_witness :
    ((([⟨1, true, []⟩, ⟨2, false, []⟩] : List Listener).map Listener.id).Nodup)
    ∧ (((notify ⟨⟨5, "un expresso", "time", true, false⟩,
          [⟨1, true, []⟩, ⟨2, false, []⟩]⟩).listeners
        = (([⟨1, true, []⟩, ⟨2, false, []⟩] : List Listener).filter
            (fun q => q.alive)).map
            (fun q => { q with inbox := q.inbox
              ++ [_payload ⟨5, "un expresso", "time", true, false⟩] }))
      ∧ (∀ q ∈ ([⟨1, true, []⟩, ⟨2, false, []⟩] : List Listener), q.alive = true →
          ({ q with inbox := q.inbox
              ++ [_payload ⟨5, "un expresso", "time", true, false⟩] } : Listener)
            ∈ (notify ⟨⟨5, "un expresso", "time", true, false⟩,
                [⟨1, true, []⟩, ⟨2, false, []⟩]⟩).listeners)
      ∧ (∀ q ∈ ([⟨1, true, []⟩, ⟨2, false, []⟩] : List Listener), q.alive = false →
          ∀ q' ∈ (notify ⟨⟨5, "un expresso", "time", true, false⟩,
                [⟨1, true, []⟩, ⟨2, false, []⟩]⟩).listeners, q'.id ≠ q.id)) :=
  ⟨by decide,
    C1_broadcast_delivery
      ⟨⟨5, "un expresso", "time", true, false⟩, [⟨1, true, []⟩, ⟨2, false, []⟩]⟩
      (by decide)⟩

/-- C2: on every way a stream session can end (cancellation, send error, or
forced shutdown) the teardown removes the session's queue from the registry,
`discard` is idempotent so the double removal on the cancellation path is a
no-op, and the cancellation path leaves the same state as the single-discard
paths. -/
theorem C2_teardown_unregisters (st : ServerState) (qid : Nat) (cause : TermCause) :
    ((streamTeardown st qid cause).listeners.all (fun q => q.id != qid) = true)
    ∧ discardListener (discardListener st.listeners qid) qid
        = discardListener st.listeners qid
    ∧ streamTeardown st qid TermCause.cancelled
        = streamTeardown st qid TermCause.shutdown := by
  have hidem : ∀ ls : List Listener,
      discardListener (discardListener ls qid) qid = discardListener ls qid := by
    intro ls
    simp [discardListener, List.filter_filter]
  have hall : ∀ ls : List Listener,
      (discardListener ls qid).all (fun q => q.id != qid) = true := by
    intro ls
    rw [List.all_eq_true]
    intro q hq
    have := (List.mem_filter.mp hq).2
    simpa [bne] using this
  refine ⟨?_, hidem st.listeners, ?_⟩
  · cases cause with
    | cancelled =>
      show ((discardListener (discardListener st.listeners qid) qid).all
        (fun q => q.id != qid)) = true
      rw [hidem st.listeners]
      exact hall st.listeners
    | sendError => exact hall st.listeners
    | shutdown => exact hall st.listeners
  · have hc : streamTeardown st qid TermCause.cancelled
        = { st with listeners :=
            discardListener (discardListener st.listeners qid) qid } := rfl
    rw [hc, hidem st.listeners]
    rfl

/-- C3: `set_mode` normalizes its input by `strip().lower()`, succeeds
exactly when the normalized value is one of "time", "logo", "dual" (storing
it and broadcasting), and on any other input it reports failure, leaves the
whole server state — display fields and listeners alike — unchanged, and
triggers no broadcast. -/
theorem C3_set_mode_validation (st : ServerState) (v : String) :
    ((set_mode st v).2.1 = true ↔
      (pyLower (pyStrip v) = "time" ∨ pyLower (pyStrip v) = "logo" ∨ pyLower (pyStrip v) = "dual"))
    ∧ (set_mode st v).1
        = (if pyLower (pyStrip v) = "time" ∨ pyLower (pyStrip v) = "logo"
              ∨ pyLower (pyStrip v) = "dual"
            then notify { st with display :=
              { st.display with MODE := pyLower (pyStrip v) } }
            else st)
    ∧ (set_mode st v).2.2
        = (if pyLower (pyStrip v) = "time" ∨ pyLower (pyStrip v) = "logo"
              ∨ pyLower (pyStrip v) = "dual"
            then pyLower (pyStrip v) else st.display.MODE) := by
  by_cases hv : pyLower (pyStrip v) = "time" ∨ pyLower (pyStrip v) = "logo"
      ∨ pyLower (pyStrip v) = "dual"
  · refine ⟨⟨fun _ => hv, fun _ => ?_⟩, ?_, ?_⟩
    · simp [set_mode, hv]
    · simp [set_mode, hv]
    · simp [set_mode, hv]
  · refine ⟨⟨fun hok => ?_, fun hm => absurd hm hv⟩, ?_, ?_⟩
    · simp [set_mode, hv] at hok
    · simp [set_mode, hv]
    · simp [set_mode, hv]

/-- C4: `set_wait` never fails, stores the clamped value
`max 0 (min 10 n)`, returns it, and the stored wait is always within
[0, 10]. -/
theorem C4_set_wait_clamps (st : ServerState) (n : Int) :
    (set_wait st n).1.display.WAIT_TIME = max 0 (min 10 n)
    ∧ (set_wait st n).2 = (true, max 0 (min 10 n))
    ∧ 0 ≤ (set_wait st n).1.display.WAIT_TIME
    ∧ (set_wait st n).1.display.WAIT_TIME ≤ 10 := by
  refine ⟨rfl, rfl, le_max_left 0 _, ?_⟩
  show max 0 (min 10 n) ≤ 10
  exact max_le (by norm_num) (min_le_left _ _)

/-- C5: `set_offer` stores the trimmed text, forces `SHOW_OFFER := false`
exactly when the trimmed text is empty (otherwise leaving the flag alone),
returns both stored fields, and always answers ok. -/
theorem C5_set_offer_trims (st : ServerState) (s : String) :
    (set_offer st s).1.display.OFFER = pyStrip s
    ∧ (set_offer st s).1.display.SHOW_OFFER
        = (if pyStrip s = "" then false else st.display.SHOW_OFFER)
    ∧ (set_offer st s).2
        = (true, pyStrip s, if pyStrip s = "" then false else st.display.SHOW_OFFER) := by
  by_cases h : pyStrip s = "" <;> refine ⟨?_, ?_, ?_⟩ <;>
    simp [set_offer, h, notify_display]

/-- C6: a new stream session emits, in order and before consuming any pushed
message, the snapshot of the current state, the directive `retry: 3000`, and
an initial keep-alive comment; the snapshot is the first emission. -/
theorem C6_stream_initial_snapshot (d : DisplayState) (events : List StreamEvent) :
    (streamEmissions d events).take 3
        = [_payload d, "retry: 3000\x0a\x0a", ": heartbeat\x0a\x0a"]
    ∧ (streamEmissions d events).head? = some (_payload d)
    ∧ (streamEmissions d events).drop 3
        = events.map (fun e => (streamLoopStep e).1) := by
  refine ⟨rfl, rfl, rfl⟩

/-- C7: in the streaming loop, once 20 time units elapse with nothing pushed
the wait resolves to a timeout and the session emits the keep-alive comment
`: heartbeat` and keeps looping; a pushed payload is forwarded verbatim; no
loop event ever closes the session. -/
theorem C7_heartbeat_on_timeout (d : String) (inbox : List String) (elapsed : Nat) :
    streamWait [] elapsed
        = (if HEARTBEAT_TIMEOUT ≤ elapsed then some StreamEvent.timeout else none)
    ∧ streamWait (d :: inbox) elapsed = some (StreamEvent.msg d)
    ∧ streamLoopStep StreamEvent.timeout = (": heartbeat\x0a\x0a", true)
    ∧ streamLoopStep (StreamEvent.msg d) = (d, true)
    ∧ ∀ e : StreamEvent, (streamLoopStep e).2 = true := by
  refine ⟨rfl, rfl, rfl, rfl, ?_⟩
  intro e
  cases e <;> rfl

/-- C8: for every boolean b, submitting a form value of truthiness b to
`offer_visibility` stores `SHOW_OFFER = b` directly, independent of the
offer text, and leaves the offer text and every other display field
unchanged. -/
theorem C8_visibility_passthrough (st : ServerState) (b : Bool)
    (e : Option String) (h : pyTruthy e = b) :
    (offer_visibility st e).1.display.SHOW_OFFER = b
    ∧ (offer_visibility st e).1.display.OFFER = st.display.OFFER
    ∧ (offer_visibility st e).1.display.WAIT_TIME = st.display.WAIT_TIME
    ∧ (offer_visibility st e).1.display.MODE = st.display.MODE
    ∧ (offer_visibility st e).1.display.AUTO_OFFER = st.display.AUTO_OFFER
    ∧ (offer_visibility st e).2 = (true, b) := by
  subst h
  exact ⟨rfl, rfl, rfl, rfl, rfl, rfl⟩

/-- C8 witness: re-showing an empty offer — with `OFFER = ""` and
`SHOW_OFFER = false`, a truthy submission yields `SHOW_OFFER = true` while
the offer text stays empty. -/
theorem C8_visibility_passthrough_witness :
    pyTruthy (some "on") = true
    ∧ ((offer_visibility (⟨⟨5, "", "time", false, false⟩, []⟩ : ServerState)
          (some "on")).1.display.SHOW_OFFER = true
      ∧ (offer_visibility (⟨⟨5, "", "time", false, false⟩, []⟩ : ServerState)
          (some "on")).1.display.OFFER
        = (⟨⟨5, "", "time", false, false⟩, []⟩ : ServerState).display.OFFER
      ∧ (offer_visibility (⟨⟨5, "", "time", false, false⟩, []⟩ : ServerState)
          (some "on")).1.display.WAIT_TIME
        = (⟨⟨5, "", "time", false, false⟩, []⟩ : ServerState).display.WAIT_TIME
      ∧ (offer_visibility (⟨⟨5, "", "time", false, false⟩, []⟩ : ServerState)
          (some "on")).1.display.MODE
        = (⟨⟨5, "", "time", false, false⟩, []⟩ : ServerState).display.MODE
      ∧ (offer_visibility (⟨⟨5, "", "time", false, false⟩, []⟩ : ServerState)
          (some "on")).1.display.AUTO_OFFER
        = (⟨⟨5, "", "time", false, false⟩, []⟩ : ServerState).display.AUTO_OFFER
      ∧ (offer_visibility (⟨⟨5, "", "time", false, false⟩, []⟩ : ServerState)
          (some "on")).2 = (true, true)) :=
  ⟨by decide,
    C8_visibility_passthrough (⟨⟨5, "", "time", false, false⟩, []⟩ : ServerState)
      true (some "on") (by decide)⟩

/-- C9: the wire payload is exactly the single line
`data: <wait>|<offer>|<mode>|<flag>` followed by a blank line, with the flag
rendered as 1 or 0, and a broadcast pushes exactly this string (and nothing
else) to the surviving listeners. -/
theorem C9_payload_format (st : ServerState)
    (h : (st.listeners.map Listener.id).Nodup) :
    _payload st.display
        = "data: " ++ toString st.display.WAIT_TIME ++ "|" ++ st.display.OFFER
            ++ "|" ++ st.display.MODE ++ "|"
            ++ (if st.display.SHOW_OFFER then "1" else "0") ++ "\x0a\x0a"
    ∧ (notify st).listeners
        = (st.listeners.filter (fun q => q.alive)).map
            (fun q => { q with inbox := q.inbox ++ [_payload st.display] }) :=
  ⟨rfl, notify_listeners st h⟩

/-- C9 witness: the payload of the default state is the expected line, and a
broadcast to a single live queue appends exactly that line. -/
theorem C9_payload_format_witness :
    ((([⟨3, true, []⟩] : List Listener).map Listener.id).Nodup)
    ∧ (_payload (⟨⟨5, "un expresso", "time", true, false⟩,
          [⟨3, true, []⟩]⟩ : ServerState).display
        = "data: "
            ++ toString (⟨⟨5, "un expresso", "time", true, false⟩,
                [⟨3, true, []⟩]⟩ : ServerState).display.WAIT_TIME
            ++ "|" ++ (⟨⟨5, "un expresso", "time", true, false⟩,
                [⟨3, true, []⟩]⟩ : ServerState).display.OFFER
            ++ "|" ++ (⟨⟨5, "un expresso", "time", true, false⟩,
                [⟨3, true, []⟩]⟩ : ServerState).display.MODE
            ++ "|" ++ (if (⟨⟨5, "un expresso", "time", true, false⟩,
                [⟨3, true, []⟩]⟩ : ServerState).display.SHOW_OFFER
                then "1" else "0") ++ "\x0a\x0a"
      ∧ (notify (⟨⟨5, "un expresso", "time", true, false⟩,
            [⟨3, true, []⟩]⟩ : ServerState)).listeners
          = (([⟨3, true, []⟩] : List Listener).filter (fun q => q.alive)).map
              (fun q => { q with inbox := q.inbox
                ++ [_payload (⟨⟨5, "un expresso", "time", true, false⟩,
                    [⟨3, true, []⟩]⟩ : ServerState).display] })) :=
  ⟨by decide,
    C9_payload_format
      (⟨⟨5, "un expresso", "time", true, false⟩, [⟨3, true, []⟩]⟩ : ServerState)
      (by decide)⟩

/-- C10: the boolean stored by the visibility and auto-offer handlers is the
Python truthiness of the submitted form string — true exactly when the field
is present and non-empty, so "false" and "0" store true while an omitted or
empty field stores false. -/
theorem C10_form_truthiness (st : ServerState) (e : Option String) :
    (offer_visibility st e).1.display.SHOW_OFFER = pyTruthy e
    ∧ (set_auto st e).1.display.AUTO_OFFER = pyTruthy e
    ∧ (∀ s : String, pyTruthy (some s) = !s.isEmpty)
    ∧ pyTruthy (some "false") = true
    ∧ pyTruthy (some "0") = true
    ∧ pyTruthy none = false
    ∧ pyTruthy (some "") = false := by
  refine ⟨rfl, rfl, fun s => rfl, by decide, by decide, rfl, by decide⟩
